import Mathlib

/-
Verification of `src/mltools/model.py`: a configuration-driven factory that
instantiates or loads machine-learning classifier objects and retrieves their
metadata from a model registry.

The configuration is a nested mapping of string keys to values; the module's
operations read it through the nested-key helper `mltools.utils.get_nested`,
branch on the `model.type` string tag, and construct or load models.  External
collaborators (the mlflow registry, the sklearn constructors, the
`mltools.architecture` classes, the auxiliary-file readers) are modelled as an
explicit environment of fallible functions and as constructors that record the
arguments they were invoked with.
-/

set_option autoImplicit false

namespace Mltools

/-- Configuration values: the externally supplied nested mapping from string
keys to strings, numbers, mappings and lists (section 3 of the spec). -/
inductive Value where
  | str : String → Value
  | num : Int → Value
  | dict : List (String × Value) → Value
  | list : List Value → Value

/-- The entry list of a mapping; any non-mapping value has no entries. -/
def Value.entries : Value → List (String × Value)
  | Value.dict d => d
  | _ => []

/-- First binding for a key in an association list (Python dicts have unique
keys, so first-match lookup agrees with dict lookup). -/
def lookupKey : List (String × Value) → String → Option Value
  | [], _ => none
  | (k, v) :: rest, key => if k = key then some v else lookupKey rest key

/-- Modelled from the spec: `mltools.utils.get_nested`, the external
nested-key lookup helper (its source is not under `src/`).  Per the spec it
"looks up a nested configuration key": it walks the key path through nested
mappings and yields the value found there, or `none` (the caller's `None`
default) when a key is absent or the value being walked is not a mapping.
Call sites with a non-`None` default recover it with `Option.getD`. -/
def get_nested : Value → List String → Option Value
  | v, [] => some v
  | Value.dict d, key :: rest =>
      match lookupKey d key with
      | some v => get_nested v rest
      | none => none
  | _, _ :: _ => none

/-- Python subscription `obj[key]`: raises `KeyError` when the key is absent
and `TypeError` when the value is not a mapping. -/
def getItem : Value → String → Except String Value
  | Value.dict d, key =>
      match lookupKey d key with
      | some v => Except.ok v
      | none => Except.error ("KeyError: " ++ key)
  | _, key => Except.error ("TypeError: value is not subscriptable: " ++ key)

/-- `os.path.join` on two path components, as used at the call sites:
an empty left component or an absolute right component yields the right
component, otherwise the components are joined with a single separator. -/
def os_path_join (a b : String) : String :=
  if a = "" then b
  else if b.data.head? = some '/' then b
  else if a.data.getLast? = some '/' then a ++ b
  else a ++ "/" ++ b

/-- Python `str()` rendering of a value, as interpolated into f-strings.
Only the string case is exercised by the error messages under study. -/
def Value.pyStr : Value → String
  | Value.str s => s
  | Value.num n => toString n
  | Value.dict _ => "<dict>"
  | Value.list _ => "<list>"

/-- Python `==` between a configuration value and a string literal: true
exactly when the value is that string. -/
def Value.eqStr : Value → String → Bool
  | Value.str s, t => s == t
  | _, _ => false

/-- Replace (or append) the binding for a key in an association list. -/
def setKey : List (String × Value) → String → Value → List (String × Value)
  | [], key, v => [(key, v)]
  | (k, w) :: rest, key, v =>
      if k = key then (key, v) :: rest else (k, w) :: setKey rest key v

/-- Set the value at a nested key path, creating intermediate mappings where
they are absent (used to state that a result is independent of one key). -/
def setNested : Value → List String → Value → Value
  | _, [], v => v
  | c, key :: rest, v =>
      Value.dict (setKey c.entries key
        (setNested ((lookupKey c.entries key).getD (Value.dict [])) rest v))

/-- Does the first character list start with the second? -/
def startsWithL : List Char → List Char → Bool
  | _, [] => true
  | [], _ :: _ => false
  | c :: cs, p :: ps => c == p && startsWithL cs ps

/-- Does the first character list contain the second as a contiguous run? -/
def containsL : List Char → List Char → Bool
  | [], pat => startsWithL [] pat
  | c :: cs, pat => startsWithL (c :: cs) pat || containsL cs pat

/-- Does the message `msg` mention the string `s` (contain it verbatim)? -/
def mentions (msg s : String) : Bool :=
  containsL msg.data s.data

/-- The six model type tags recognized by `setup_model`. -/
def recognized_types : List String :=
  ["TF-IDF-KNN", "TF-IDF-SVM", "TF-IDF-RF", "TF-IDF-XGBoost",
   "TextPreprocessor", "Relabeller"]

/-- Registry metadata for a model, as returned by
`mlflow.models.get_model_info`; only the run identifier is read here. -/
structure ModelInfo where
  run_id : String

/-- A baseline sklearn classifier, modelled as an opaque constructor that
records the keyword parameters it was invoked with. -/
inductive Baseline where
  | kNeighborsClassifier (parameters : Value)
  | svc (probability : Bool) (parameters : Value)
  | randomForestClassifier (parameters : Value)

/-- The object wrapped by a `PredictTransformerWrapper`: either the
`FunctionTransformer` over `preprocessor.preprocess_iterable` built in the
`TextPreprocessor` branch (recording the preprocessor parameters and the
`preprocess_stack` keyword argument), or the `Relabeller` instance itself. -/
inductive WrappedObj where
  | functionTransformerOnPreprocess (preprocessor_parameters : Value)
      (preprocess_stack : Value)
  | relabeller (parameters : Value)

/-- Modelled from the spec: the classifier objects built or loaded by this
module.  The `mltools.architecture` classes are external opaque collaborators
(their source is not under `src/`); per the spec the factory "constructs one
of six external-library objects with keyword parameters taken verbatim from
configuration" and "optionally attaches class-weighting and cost-matrix
auxiliary data", so each constructor records its arguments verbatim. -/
inductive Model where
  | tfidfClassifier (baseline_classifier : Baseline) (model_name : Option Value)
      (class_weights : Option Value)
  | tfidfXGBoost (model_name : Option Value) (parameters : Value)
      (class_weights : Option Value) (cost_matrix : Option Value)
  | predictTransformerWrapper (wrapped : WrappedObj)
      (transforms_X : Bool) (transforms_y : Bool)

/-- Modelled from the spec: `set_class_weights` on an architecture object
attaches the class-weight mapping to the model (the architecture module is
not under `src/`).  Recorded as setting the model's class-weights slot. -/
def Model.set_class_weights : Model → Option Value → Model
  | Model.tfidfClassifier b n _, w => Model.tfidfClassifier b n w
  | Model.tfidfXGBoost n p _ cm, w => Model.tfidfXGBoost n p w cm
  | m, _ => m

/-- The `python_model` attribute of a pyfunc model implementation; its
`model` field is the wrapped estimator. -/
structure PythonModel where
  model : Model

/-- The `_PyFuncModel__model_impl` attribute of a loaded pyfunc model. -/
structure ModelImpl where
  python_model : PythonModel

/-- A packaged model as returned by `mlflow.pyfunc.load_model`. -/
structure PyFuncModel where
  model_impl : ModelImpl

/-- The external world: the mlflow registry and the auxiliary-file readers,
each a fallible call (an exception is an `Except.error` message). -/
structure Env where
  pyfunc_load_model : Value → Except String PyFuncModel
  get_model_info : Value → Except String ModelInfo
  read_class_weights_from_file : String → Except String Value
  read_cost_matrix_from_file : String → Except String Value

/-- `load_model` (model.py lines 11-38): read `model.uri` from the config,
raise when it is absent, otherwise fetch the pyfunc artifact and unwrap
`pyfunc_model._PyFuncModel__model_impl.python_model.model`. -/
def load_model (env : Env) (config : Value) : Except String Model :=
  match get_nested config ["model", "uri"] with
  | none => Except.error "Model uri not provided."
  | some model_uri =>
      (env.pyfunc_load_model model_uri).map
        (fun pyfunc_model => pyfunc_model.model_impl.python_model.model)

/-- The `### class weights options` block of `setup_model` (lines 67-81),
applied to the already-read `model.class_weights` value: when present, read
`relative_or_absolute` (with default `'absolute'`; the value is never used),
require `file_path`, join it onto the root path and read the weights file.
Returns the optional class-weight mapping (`none` when the block was
skipped, mirroring `has_class_weights = False`). -/
def class_weights_options (env : Env) (root_path : Value) :
    Option Value → Except String (Option Value)
  | none => Except.ok none
  | some class_weights_config_dict =>
      let _class_weights_relative_or_absolute :=
        (get_nested class_weights_config_dict ["relative_or_absolute"]).getD
          (Value.str "absolute")
      match get_nested class_weights_config_dict ["file_path"] with
      | none => Except.error "Class weights file path not provided."
      | some class_weights_file_path =>
          match root_path, class_weights_file_path with
          | Value.str p, Value.str f =>
              (env.read_class_weights_from_file (os_path_join p f)).map some
          | _, _ => Except.error "TypeError: join argument must be str"

/-- The expression `config['model']['parameters']['preprocess_stack']`
(line 109): three direct subscriptions, each able to raise. -/
def preprocess_stack_of (config : Value) : Except String Value :=
  match getItem config "model" with
  | Except.error e => Except.error e
  | Except.ok m =>
      match getItem m "parameters" with
      | Except.error e => Except.error e
      | Except.ok p => getItem p "preprocess_stack"

/-- `setup_model` (model.py lines 40-120), transcribed branch for branch.
Note line 58: the raw `model_uri` value, not the config, is passed to
`load_model`. -/
def setup_model (env : Env) (config : Value) : Except String Model :=
  let root_path := (get_nested config ["global", "root_path"]).getD (Value.str "")
  match get_nested config ["model", "uri"] with
  | some model_uri => load_model env model_uri
  | none =>
    match get_nested config ["model", "type"] with
    | none => Except.error "Model type not provided."
    | some model_type =>
      let model_name := get_nested config ["model", "name"]
      let parameters := (get_nested config ["model", "parameters"]).getD (Value.dict [])
      match class_weights_options env root_path
          (get_nested config ["model", "class_weights"]) with
      | Except.error e => Except.error e
      | Except.ok class_weights_dict =>
        let has_class_weights := class_weights_dict.isSome
        if model_type.eqStr "TF-IDF-KNN" then
          let baseline_classifier := Baseline.kNeighborsClassifier parameters
          Except.ok (Model.tfidfClassifier baseline_classifier model_name none)
        else if model_type.eqStr "TF-IDF-SVM" then
          let baseline_classifier := Baseline.svc true parameters
          let model := Model.tfidfClassifier baseline_classifier model_name none
          Except.ok (if has_class_weights then
            model.set_class_weights class_weights_dict else model)
        else if model_type.eqStr "TF-IDF-RF" then
          let baseline_classifier := Baseline.randomForestClassifier parameters
          let model := Model.tfidfClassifier baseline_classifier model_name none
          Except.ok (if has_class_weights then
            model.set_class_weights class_weights_dict else model)
        else if model_type.eqStr "TF-IDF-XGBoost" then
          match get_nested config ["model", "cost_matrix"] with
          | none =>
              Except.ok (Model.tfidfXGBoost model_name parameters
                class_weights_dict none)
          | some cost_matrix_filepath =>
              match root_path, cost_matrix_filepath with
              | Value.str p, Value.str f =>
                  (env.read_cost_matrix_from_file (os_path_join p f)).map
                    (fun cost_matrix => Model.tfidfXGBoost model_name parameters
                      class_weights_dict (some cost_matrix))
              | _, _ => Except.error "TypeError: join argument must be str"
        else if model_type.eqStr "TextPreprocessor" then
          match preprocess_stack_of config with
          | Except.error e => Except.error e
          | Except.ok preprocess_stack =>
              Except.ok (Model.predictTransformerWrapper
                (WrappedObj.functionTransformerOnPreprocess parameters
                  preprocess_stack) true false)
        else if model_type.eqStr "Relabeller" then
          Except.ok (Model.predictTransformerWrapper
            (WrappedObj.relabeller parameters) false true)
        else
          Except.error ("Model type " ++ model_type.pyStr ++ " not recognized.")

/-- A Python list comprehension whose element expression may raise: elements
are produced left to right and the first exception aborts the whole list. -/
def mapExcept {α β : Type} (f : α → Except String β) :
    List α → Except String (List β)
  | [] => Except.ok []
  | x :: xs =>
      match f x with
      | Except.error e => Except.error e
      | Except.ok y =>
          match mapExcept f xs with
          | Except.error e => Except.error e
          | Except.ok ys => Except.ok (y :: ys)

/-- `load_model_list` (lines 122-145): `[load_model({'model': {'uri':
model_uri}}) for model_uri in config['model_list']]`. -/
def load_model_list (env : Env) (config : Value) : Except String (List Model) :=
  match getItem config "model_list" with
  | Except.error e => Except.error e
  | Except.ok (Value.list model_uris) =>
      mapExcept (fun model_uri =>
        load_model env (Value.dict [("model", Value.dict [("uri", model_uri)])]))
        model_uris
  | Except.ok _ => Except.error "TypeError: value is not iterable"

/-- `load_model_info` (lines 147-174): read `model.uri`, raise when absent,
otherwise fetch the metadata. -/
def load_model_info (env : Env) (config : Value) : Except String ModelInfo :=
  match get_nested config ["model", "uri"] with
  | none => Except.error "Model uri not provided."
  | some model_uri => env.get_model_info model_uri

/-- `load_model_info_list` (lines 176-197): map `load_model_info` over
`config['model_list']`. -/
def load_model_info_list (env : Env) (config : Value) :
    Except String (List ModelInfo) :=
  match getItem config "model_list" with
  | Except.error e => Except.error e
  | Except.ok (Value.list model_uris) =>
      mapExcept (fun model_uri =>
        load_model_info env (Value.dict [("model", Value.dict [("uri", model_uri)])]))
        model_uris
  | Except.ok _ => Except.error "TypeError: value is not iterable"

/-- `model_uri_to_version` (lines 199-219): fetch the model metadata and
return its `run_id`. -/
def model_uri_to_version (env : Env) (model_uri : Value) : Except String String :=
  (env.get_model_info model_uri).map (fun model_info => model_info.run_id)

/-! ### A concrete registry environment for evaluating the operations -/

/-- A model stored in the demo registry under `runs:/abc123def/model`. -/
def regModelA : Model :=
  Model.tfidfClassifier (Baseline.kNeighborsClassifier (Value.dict [])) none none

/-- A model stored in the demo registry under `runs:/run2/model`. -/
def regModelB : Model :=
  Model.tfidfClassifier (Baseline.svc true (Value.dict [])) none none

/-- A model stored in the demo registry under `runs:/run3/model`. -/
def regModelC : Model :=
  Model.tfidfClassifier (Baseline.randomForestClassifier (Value.dict [])) none none

/-- A concrete environment: a registry holding three models and a filesystem
holding one class-weights file. -/
def demoEnv : Env where
  pyfunc_load_model := fun uri =>
    match uri with
    | Value.str "runs:/abc123def/model" => Except.ok ⟨⟨⟨regModelA⟩⟩⟩
    | Value.str "runs:/run2/model" => Except.ok ⟨⟨⟨regModelB⟩⟩⟩
    | Value.str "runs:/run3/model" => Except.ok ⟨⟨⟨regModelC⟩⟩⟩
    | _ => Except.error "MlflowException: artifact not found"
  get_model_info := fun uri =>
    match uri with
    | Value.str "runs:/abc123def/model" => Except.ok ⟨"abc123def"⟩
    | Value.str "runs:/run2/model" => Except.ok ⟨"run2"⟩
    | Value.str "runs:/run3/model" => Except.ok ⟨"run3"⟩
    | _ => Except.error "MlflowException: model info not found"
  read_class_weights_from_file := fun path =>
    if path = "data/class_weights.csv" then
      Except.ok (Value.dict [("classA", Value.num 1), ("classB", Value.num 3)])
    else Except.error ("FileNotFoundError: " ++ path)
  read_cost_matrix_from_file := fun path =>
    Except.error ("FileNotFoundError: " ++ path)

/-- A config carrying only a model URI, as in `load_model`'s docstring. -/
def uriConfig : Value :=
  Value.dict [("model", Value.dict [("uri", Value.str "runs:/abc123def/model")])]

/-- The `model` sub-mapping of a configuration (empty when absent). -/
def modelValue (c : Value) : Value :=
  (lookupKey c.entries "model").getD (Value.dict [])

/-- The `model.class_weights` sub-mapping of a configuration. -/
def classWeightsValue (c : Value) : Value :=
  (lookupKey (modelValue c).entries "class_weights").getD (Value.dict [])

/-! ### State-passing transcriptions

To state that the operations never mutate the caller-supplied configuration,
each is transcribed once more in state-passing form: the configuration is
threaded as explicit state, every Python statement that touches it is a read,
and each operation returns its result together with the final state. -/

/-- `load_model`, with the configuration threaded as state. -/
def load_modelS (env : Env) (config : Value) : Except String Model × Value :=
  match get_nested config ["model", "uri"] with
  | none => (Except.error "Model uri not provided.", config)
  | some model_uri =>
      ((env.pyfunc_load_model model_uri).map
        (fun pyfunc_model => pyfunc_model.model_impl.python_model.model), config)

/-- `setup_model`, with the configuration threaded as state.  On the uri
branch `load_model` receives the uri value, not the config; `load_modelS`
returns its own argument unchanged, so the enclosing config is unchanged. -/
def setup_modelS (env : Env) (config : Value) : Except String Model × Value :=
  let root_path := (get_nested config ["global", "root_path"]).getD (Value.str "")
  match get_nested config ["model", "uri"] with
  | some model_uri => ((load_modelS env model_uri).1, config)
  | none =>
    match get_nested config ["model", "type"] with
    | none => (Except.error "Model type not provided.", config)
    | some model_type =>
      let model_name := get_nested config ["model", "name"]
      let parameters := (get_nested config ["model", "parameters"]).getD (Value.dict [])
      match class_weights_options env root_path
          (get_nested config ["model", "class_weights"]) with
      | Except.error e => (Except.error e, config)
      | Except.ok class_weights_dict =>
        let has_class_weights := class_weights_dict.isSome
        if model_type.eqStr "TF-IDF-KNN" then
          let baseline_classifier := Baseline.kNeighborsClassifier parameters
          (Except.ok (Model.tfidfClassifier baseline_classifier model_name none),
            config)
        else if model_type.eqStr "TF-IDF-SVM" then
          let baseline_classifier := Baseline.svc true parameters
          let model := Model.tfidfClassifier baseline_classifier model_name none
          (Except.ok (if has_class_weights then
            model.set_class_weights class_weights_dict else model), config)
        else if model_type.eqStr "TF-IDF-RF" then
          let baseline_classifier := Baseline.randomForestClassifier parameters
          let model := Model.tfidfClassifier baseline_classifier model_name none
          (Except.ok (if has_class_weights then
            model.set_class_weights class_weights_dict else model), config)
        else if model_type.eqStr "TF-IDF-XGBoost" then
          match get_nested config ["model", "cost_matrix"] with
          | none =>
              (Except.ok (Model.tfidfXGBoost model_name parameters
                class_weights_dict none), config)
          | some cost_matrix_filepath =>
              match root_path, cost_matrix_filepath with
              | Value.str p, Value.str f =>
                  ((env.read_cost_matrix_from_file (os_path_join p f)).map
                    (fun cost_matrix => Model.tfidfXGBoost model_name parameters
                      class_weights_dict (some cost_matrix)), config)
              | _, _ => (Except.error "TypeError: join argument must be str", config)
        else if model_type.eqStr "TextPreprocessor" then
          match preprocess_stack_of config with
          | Except.error e => (Except.error e, config)
          | Except.ok preprocess_stack =>
              (Except.ok (Model.predictTransformerWrapper
                (WrappedObj.functionTransformerOnPreprocess parameters
                  preprocess_stack) true false), config)
        else if model_type.eqStr "Relabeller" then
          (Except.ok (Model.predictTransformerWrapper
            (WrappedObj.relabeller parameters) false true), config)
        else
          (Except.error ("Model type " ++ model_type.pyStr ++ " not recognized."),
            config)

/-- `load_model_list`, with the configuration threaded as state.  Each
element call receives a fresh config built around one uri. -/
def load_model_listS (env : Env) (config : Value) :
    Except String (List Model) × Value :=
  match getItem config "model_list" with
  | Except.error e => (Except.error e, config)
  | Except.ok (Value.list model_uris) =>
      (mapExcept (fun model_uri =>
        (load_modelS env
          (Value.dict [("model", Value.dict [("uri", model_uri)])])).1)
        model_uris, config)
  | Except.ok _ => (Except.error "TypeError: value is not iterable", config)

/-- `load_model_info`, with the configuration threaded as state. -/
def load_model_infoS (env : Env) (config : Value) :
    Except String ModelInfo × Value :=
  match get_nested config ["model", "uri"] with
  | none => (Except.error "Model uri not provided.", config)
  | some model_uri => (env.get_model_info model_uri, config)

/-- `load_model_info_list`, with the configuration threaded as state. -/
def load_model_info_listS (env : Env) (config : Value) :
    Except String (List ModelInfo) × Value :=
  match getItem config "model_list" with
  | Except.error e => (Except.error e, config)
  | Except.ok (Value.list model_uris) =>
      (mapExcept (fun model_uri =>
        (load_model_infoS env
          (Value.dict [("model", Value.dict [("uri", model_uri)])])).1)
        model_uris, config)
  | Except.ok _ => (Except.error "TypeError: value is not iterable", config)

/-! ### Concrete configurations used to instantiate the theorems -/

/-- A config with a model uri and an unrecognized `model.type`. -/
def bogusTypeUriConfig : Value :=
  Value.dict [("model", Value.dict
    [("uri", Value.str "runs:/abc123def/model"),
     ("type", Value.str "Bogus-Type")])]

/-- A config with no uri and an unrecognized `model.type`. -/
def bogusTypeConfig : Value :=
  Value.dict [("model", Value.dict [("type", Value.str "Bogus-Type")])]

/-- A valid `TF-IDF-KNN` config with a name and parameters. -/
def knnConfig : Value :=
  Value.dict [("model", Value.dict
    [("type", Value.str "TF-IDF-KNN"), ("name", Value.str "my-knn"),
     ("parameters", Value.dict [("n_neighbors", Value.num 5)])])]

/-- The classifier `setup_model` builds from `knnConfig`. -/
def knnBuiltModel : Model :=
  Model.tfidfClassifier
    (Baseline.kNeighborsClassifier (Value.dict [("n_neighbors", Value.num 5)]))
    (some (Value.str "my-knn")) none

/-- A `TF-IDF-KNN` config with class weights pointing at the demo file. -/
def knnCwConfig : Value :=
  Value.dict [("model", Value.dict
    [("type", Value.str "TF-IDF-KNN"),
     ("class_weights", Value.dict
       [("file_path", Value.str "data/class_weights.csv")])])]

/-- A config whose `model.class_weights` is present but lacks `file_path`
(and which has no `model.type`). -/
def classWeightsNoTypeConfig : Value :=
  Value.dict [("model", Value.dict [("class_weights", Value.dict [])])]

/-- A config with class weights lacking `file_path` but with a type. -/
def classWeightsNoPathConfig : Value :=
  Value.dict [("model", Value.dict
    [("type", Value.str "TF-IDF-KNN"),
     ("class_weights", Value.dict
       [("relative_or_absolute", Value.str "relative")])])]

/-- A list config naming the three models of the demo registry. -/
def threeUriConfig : Value :=
  Value.dict [("model_list", Value.list
    [Value.str "runs:/abc123def/model", Value.str "runs:/run2/model",
     Value.str "runs:/run3/model"])]

/-- The uris of `threeUriConfig`. -/
def threeUris : List Value :=
  [Value.str "runs:/abc123def/model", Value.str "runs:/run2/model",
   Value.str "runs:/run3/model"]

/-- The models `load_model_list` returns for `threeUriConfig`. -/
def threeModels : List Model := [regModelA, regModelB, regModelC]

/-- A list config whose second uri is absent from the demo registry. -/
def badMiddleUriConfig : Value :=
  Value.dict [("model_list", Value.list
    [Value.str "runs:/abc123def/model", Value.str "runs:/missing/model",
     Value.str "runs:/run3/model"])]

/-- The uris of `badMiddleUriConfig`. -/
def badMiddleUris : List Value :=
  [Value.str "runs:/abc123def/model", Value.str "runs:/missing/model",
   Value.str "runs:/run3/model"]

/-! ### Association-list lemmas -/

theorem lookup_setKey_self (d : List (String × Value)) (key : String) (v : Value) :
    lookupKey (setKey d key v) key = some v := by
  induction d with
  | nil => simp [setKey, lookupKey]
  | cons hd tl ih =>
    obtain ⟨k, w⟩ := hd
    by_cases h : k = key
    · simp [setKey, h, lookupKey]
    · simp [setKey, h, lookupKey, ih]

theorem lookup_setKey_ne (d : List (String × Value)) (key : String) (v : Value)
    (k : String) (h : k ≠ key) :
    lookupKey (setKey d key v) k = lookupKey d k := by
  induction d with
  | nil => simp [setKey, lookupKey, Ne.symm h]
  | cons hd tl ih =>
    obtain ⟨k1, w⟩ := hd
    by_cases h1 : k1 = key
    · subst h1
      simp [setKey, lookupKey, Ne.symm h]
    · simp [setKey, h1, lookupKey, ih]

/-! ### Lemmas about `mentions` -/

theorem containsL_nil (s : List Char) : containsL s [] = true := by
  cases s <;> simp [containsL, startsWithL]

theorem startsWithL_append (p rest : List Char) :
    startsWithL (p ++ rest) p = true := by
  induction p with
  | nil => simp [startsWithL]
  | cons c cs ih => simp [startsWithL, ih]

theorem containsL_self_append (p rest : List Char) :
    containsL (p ++ rest) p = true := by
  cases p with
  | nil => exact containsL_nil rest
  | cons c cs =>
    have h := startsWithL_append (c :: cs) rest
    simp only [List.cons_append] at h
    simp [containsL, h]

theorem containsL_append_left (a s pat : List Char) (h : containsL s pat = true) :
    containsL (a ++ s) pat = true := by
  induction a with
  | nil => simpa using h
  | cons c cs ih => simp [containsL, ih]

theorem mentions_mid (a s b : String) : mentions (a ++ s ++ b) s = true := by
  unfold mentions
  rw [String.data_append, String.data_append, List.append_assoc]
  exact containsL_append_left _ _ _ (containsL_self_append _ _)

/-! ### Lemmas about `mapExcept` -/

theorem mapExcept_ok {α β : Type} (f : α → Except String β) :
    ∀ (l : List α) (out : List β), mapExcept f l = Except.ok out →
      out.length = l.length ∧
      ∀ i (h1 : i < l.length) (h2 : i < out.length),
        f (l.get ⟨i, h1⟩) = Except.ok (out.get ⟨i, h2⟩) := by
  intro l
  induction l with
  | nil =>
    intro out h
    simp only [mapExcept, Except.ok.injEq] at h
    subst h
    exact ⟨rfl, fun i h1 _ => absurd h1 (Nat.not_lt_zero i)⟩
  | cons x xs ih =>
    intro out h
    simp only [mapExcept] at h
    cases hfx : f x with
    | error e => rw [hfx] at h; exact absurd h (by simp)
    | ok y =>
      rw [hfx] at h
      cases hm : mapExcept f xs with
      | error e => rw [hm] at h; exact absurd h (by simp)
      | ok ys =>
        rw [hm] at h
        simp only [Except.ok.injEq] at h
        subst h
        obtain ⟨hlen, hget⟩ := ih ys hm
        refine ⟨by simp [hlen], ?_⟩
        intro i h1 h2
        cases i with
        | zero => simpa using hfx
        | succ n =>
          simpa using hget n (Nat.lt_of_succ_lt_succ h1) (Nat.lt_of_succ_lt_succ h2)

theorem mapExcept_error {α β : Type} (f : α → Except String β) :
    ∀ (l : List α) (i : Nat) (h : i < l.length) (e : String),
      (∀ j (hj : j < i), ∃ m, f (l.get ⟨j, Nat.lt_trans hj h⟩) = Except.ok m) →
      f (l.get ⟨i, h⟩) = Except.error e →
      mapExcept f l = Except.error e := by
  intro l
  induction l with
  | nil => intro i h; exact absurd h (Nat.not_lt_zero i)
  | cons x xs ih =>
    intro i h e hpre hf
    cases i with
    | zero =>
      simp only [List.get] at hf
      simp [mapExcept, hf]
    | succ n =>
      obtain ⟨m, hm⟩ := hpre 0 (Nat.succ_pos n)
      simp only [List.get] at hm hf
      have hn : n < xs.length := Nat.lt_of_succ_lt_succ h
      have hpre2 : ∀ j (hj : j < n), ∃ m,
          f (xs.get ⟨j, Nat.lt_trans hj hn⟩) = Except.ok m := by
        intro j hj
        obtain ⟨m2, hm2⟩ := hpre (j + 1) (Nat.succ_lt_succ hj)
        simp only [List.get] at hm2
        exact ⟨m2, hm2⟩
      simp [mapExcept, hm, ih n hn e hpre2 hf]

/-! ### `setup_model` reads the configuration only through fixed key paths -/

theorem setup_model_congr (env : Env) (c1 c2 : Value)
    (hroot : get_nested c1 ["global", "root_path"]
      = get_nested c2 ["global", "root_path"])
    (huri : get_nested c1 ["model", "uri"] = get_nested c2 ["model", "uri"])
    (htype : get_nested c1 ["model", "type"] = get_nested c2 ["model", "type"])
    (hname : get_nested c1 ["model", "name"] = get_nested c2 ["model", "name"])
    (hparams : get_nested c1 ["model", "parameters"]
      = get_nested c2 ["model", "parameters"])
    (hcw : class_weights_options env
        ((get_nested c2 ["global", "root_path"]).getD (Value.str ""))
        (get_nested c1 ["model", "class_weights"])
      = class_weights_options env
        ((get_nested c2 ["global", "root_path"]).getD (Value.str ""))
        (get_nested c2 ["model", "class_weights"]))
    (hcost : get_nested c1 ["model", "cost_matrix"]
      = get_nested c2 ["model", "cost_matrix"])
    (hpre : preprocess_stack_of c1 = preprocess_stack_of c2) :
    setup_model env c1 = setup_model env c2 := by
  simp only [setup_model]
  rw [hroot, huri, htype, hname, hparams, hcost, hpre, hcw]

/-! ### Reads of a configuration after setting
`model.class_weights.relative_or_absolute` -/

theorem setNested_relon_unfold (c v : Value) :
    setNested c ["model", "class_weights", "relative_or_absolute"] v
    = Value.dict (setKey c.entries "model"
        (Value.dict (setKey (modelValue c).entries "class_weights"
          (Value.dict (setKey (classWeightsValue c).entries
            "relative_or_absolute" v))))) := rfl

theorem read_top_other (c v : Value) (k : String) (hk : k ≠ "model")
    (rest : List String) :
    get_nested (setNested c ["model", "class_weights", "relative_or_absolute"] v)
        (k :: rest)
    = (match lookupKey c.entries k with
       | some w => get_nested w rest
       | none => none) := by
  rw [setNested_relon_unfold]
  simp only [get_nested]
  rw [lookup_setKey_ne _ _ _ _ hk]

theorem read_model_other (c v : Value) (k : String) (hk : k ≠ "class_weights") :
    get_nested (setNested c ["model", "class_weights", "relative_or_absolute"] v)
        ["model", k]
    = lookupKey (modelValue c).entries k := by
  rw [setNested_relon_unfold]
  have hne := lookup_setKey_ne (modelValue c).entries "class_weights"
    (Value.dict (setKey (classWeightsValue c).entries "relative_or_absolute" v)) k hk
  simp only [get_nested, lookup_setKey_self, hne]
  cases hl : lookupKey (modelValue c).entries k
  · rfl
  · rfl

theorem read_class_weights (c v : Value) :
    get_nested (setNested c ["model", "class_weights", "relative_or_absolute"] v)
        ["model", "class_weights"]
    = some (Value.dict (setKey (classWeightsValue c).entries
        "relative_or_absolute" v)) := by
  rw [setNested_relon_unfold]
  simp only [get_nested, lookup_setKey_self]

theorem class_weights_options_set_relon (env : Env) (r : Value)
    (wd : List (String × Value)) (v1 v2 : Value) :
    class_weights_options env r
      (some (Value.dict (setKey wd "relative_or_absolute" v1)))
    = class_weights_options env r
      (some (Value.dict (setKey wd "relative_or_absolute" v2))) := by
  simp only [class_weights_options, get_nested]
  rw [lookup_setKey_ne wd "relative_or_absolute" v1 "file_path" (by decide),
    lookup_setKey_ne wd "relative_or_absolute" v2 "file_path" (by decide)]

theorem read_preprocess_stack (c v : Value) :
    preprocess_stack_of
      (setNested c ["model", "class_weights", "relative_or_absolute"] v)
    = (match lookupKey (modelValue c).entries "parameters" with
       | some p => getItem p "preprocess_stack"
       | none => Except.error "KeyError: parameters") := by
  rw [setNested_relon_unfold]
  have hne := lookup_setKey_ne (modelValue c).entries "class_weights"
    (Value.dict (setKey (classWeightsValue c).entries "relative_or_absolute" v))
    "parameters" (by decide)
  simp only [preprocess_stack_of, getItem, lookup_setKey_self, hne]
  cases hl : lookupKey (modelValue c).entries "parameters"
  · rfl
  · rfl

/-! ### The claims -/

/-- C1: the claim says that when `model.uri` is present `setup_model`
delegates to the load-by-uri operation and returns the estimator that
`load_model` would return for a config containing that uri.  The code
instead passes the raw uri value to `load_model` (line 58), whose
`['model', 'uri']` lookup then finds nothing, so `setup_model` raises
"Model uri not provided." on the very config for which `load_model`
succeeds. -/
theorem setup_model_uri_delegation_bug :
    load_model demoEnv uriConfig = Except.ok regModelA ∧
    setup_model demoEnv uriConfig = Except.error "Model uri not provided." :=
  ⟨rfl, rfl⟩

/-- C2: when both `model.uri` and `model.type` resolve to no value,
`setup_model` raises "Model type not provided." rather than returning a
model. -/
theorem setup_model_missing_uri_and_type_fails (env : Env) (config : Value)
    (huri : get_nested config ["model", "uri"] = none)
    (htype : get_nested config ["model", "type"] = none) :
    setup_model env config = Except.error "Model type not provided." := by
  simp only [setup_model, huri, htype]

/-- C2 witness: the empty configuration. -/
theorem setup_model_missing_uri_and_type_fails_witness :
    get_nested (Value.dict []) ["model", "uri"] = none ∧
    get_nested (Value.dict []) ["model", "type"] = none ∧
    setup_model demoEnv (Value.dict [])
      = Except.error "Model type not provided." :=
  ⟨rfl, rfl,
    setup_model_missing_uri_and_type_fails demoEnv (Value.dict []) rfl rfl⟩

/-- C3 counterexample: a configuration whose `model.type` is the
unrecognized string "Bogus-Type" but which also carries `model.uri`;
`setup_model` raises "Model uri not provided." (via the uri branch), an
error that does not name the offending type string, so the claim as
universally stated is false. -/
theorem setup_model_unrecognized_type_counterexample :
    get_nested bogusTypeUriConfig ["model", "type"]
      = some (Value.str "Bogus-Type") ∧
    "Bogus-Type" ∉ recognized_types ∧
    setup_model demoEnv bogusTypeUriConfig
      = Except.error "Model uri not provided." ∧
    mentions "Model uri not provided." "Bogus-Type" = false :=
  ⟨rfl, by decide, rfl, by decide⟩

/-- C3 (amended): for every configuration with no `model.uri`, whose
class-weights step does not itself fail, and whose `model.type` is a string
outside the six recognized tags, `setup_model` raises an error whose
message names that offending type string. -/
theorem setup_model_unrecognized_type_names_it (env : Env) (config : Value)
    (s : String) (cw : Option Value)
    (huri : get_nested config ["model", "uri"] = none)
    (htype : get_nested config ["model", "type"] = some (Value.str s))
    (hcw : class_weights_options env
        ((get_nested config ["global", "root_path"]).getD (Value.str ""))
        (get_nested config ["model", "class_weights"]) = Except.ok cw)
    (hs : s ∉ recognized_types) :
    setup_model env config
      = Except.error ("Model type " ++ s ++ " not recognized.") ∧
    mentions ("Model type " ++ s ++ " not recognized.") s = true := by
  refine ⟨?_, mentions_mid "Model type " s " not recognized."⟩
  simp only [recognized_types, List.mem_cons, List.not_mem_nil, or_false,
    not_or] at hs
  obtain ⟨h1, h2, h3, h4, h5, h6⟩ := hs
  simp only [setup_model, huri, htype, hcw]
  simp [Value.eqStr, Value.pyStr, h1, h2, h3, h4, h5, h6]

/-- C3 witness: the unrecognized tag "Bogus-Type" with no uri and no class
weights. -/
theorem setup_model_unrecognized_type_names_it_witness :
    setup_model demoEnv bogusTypeConfig
      = Except.error ("Model type " ++ "Bogus-Type" ++ " not recognized.") ∧
    mentions ("Model type " ++ "Bogus-Type" ++ " not recognized.")
      "Bogus-Type" = true :=
  setup_model_unrecognized_type_names_it demoEnv bogusTypeConfig
    "Bogus-Type" none rfl rfl rfl (by decide)

/-- C4: on a configuration with no `model.uri`, `model.type` =
"TF-IDF-KNN" and supplied parameters, whatever model `setup_model` returns
is a `TF_IDF_Classifier` whose baseline classifier is a
`KNeighborsClassifier` built from exactly those parameters and whose model
name is the configured `model.name`. -/
theorem setup_model_knn_builds_classifier (env : Env) (config : Value)
    (p : Value)
    (huri : get_nested config ["model", "uri"] = none)
    (htype : get_nested config ["model", "type"]
      = some (Value.str "TF-IDF-KNN"))
    (hp : get_nested config ["model", "parameters"] = some p) :
    ∀ m, setup_model env config = Except.ok m →
      m = Model.tfidfClassifier (Baseline.kNeighborsClassifier p)
            (get_nested config ["model", "name"]) none := by
  intro m hm
  simp only [setup_model, huri, htype, hp, Option.getD_some] at hm
  cases hcw : class_weights_options env
      ((get_nested config ["global", "root_path"]).getD (Value.str ""))
      (get_nested config ["model", "class_weights"]) with
  | error e => rw [hcw] at hm; exact absurd hm (by simp)
  | ok cw =>
    rw [hcw] at hm
    simp [Value.eqStr] at hm
    exact hm.symm

/-- C4 witness: a concrete KNN configuration and the model built for it. -/
theorem setup_model_knn_builds_classifier_witness :
    setup_model demoEnv knnConfig = Except.ok knnBuiltModel ∧
    knnBuiltModel = Model.tfidfClassifier
      (Baseline.kNeighborsClassifier
        (Value.dict [("n_neighbors", Value.num 5)]))
      (get_nested knnConfig ["model", "name"]) none :=
  ⟨rfl, setup_model_knn_builds_classifier demoEnv knnConfig
    (Value.dict [("n_neighbors", Value.num 5)]) rfl rfl rfl knnBuiltModel rfl⟩

/-- C5: when `config['model_list']` is a list of uris, a successful
`load_model_list` returns one model per uri, in order, with the i-th output
loaded from the i-th input; and the first failing load aborts the whole
call with that error and no partial result. -/
theorem load_model_list_order_and_abort (env : Env) (config : Value)
    (uris : List Value)
    (hml : getItem config "model_list" = Except.ok (Value.list uris)) :
    (∀ models, load_model_list env config = Except.ok models →
      models.length = uris.length ∧
      ∀ i (h1 : i < uris.length) (h2 : i < models.length),
        load_model env
            (Value.dict [("model", Value.dict [("uri", uris.get ⟨i, h1⟩)])])
          = Except.ok (models.get ⟨i, h2⟩)) ∧
    (∀ i (h : i < uris.length) (e : String),
      (∀ j (hj : j < i), ∃ m,
        load_model env
            (Value.dict [("model",
              Value.dict [("uri", uris.get ⟨j, Nat.lt_trans hj h⟩)])])
          = Except.ok m) →
      load_model env
          (Value.dict [("model", Value.dict [("uri", uris.get ⟨i, h⟩)])])
        = Except.error e →
      load_model_list env config = Except.error e) := by
  have hrun : load_model_list env config
      = mapExcept (fun model_uri =>
          load_model env
            (Value.dict [("model", Value.dict [("uri", model_uri)])])) uris := by
    simp only [load_model_list, hml]
  constructor
  · intro models hms
    rw [hrun] at hms
    exact mapExcept_ok _ uris models hms
  · intro i h e hpre hf
    rw [hrun]
    exact mapExcept_error _ uris i h e hpre hf

/-- C5 witness: three registry uris load to three models in order, and a
failing middle uri aborts the call with the registry's error. -/
theorem load_model_list_order_and_abort_witness :
    threeModels.length = threeUris.length ∧
    load_model_list demoEnv badMiddleUriConfig
      = Except.error "MlflowException: artifact not found" := by
  constructor
  · exact ((load_model_list_order_and_abort demoEnv threeUriConfig
      threeUris rfl).1 threeModels rfl).1
  · refine (load_model_list_order_and_abort demoEnv badMiddleUriConfig
      badMiddleUris rfl).2 1 (by decide) _ ?_ rfl
    intro j hj
    have hj0 : j = 0 := Nat.lt_one_iff.mp hj
    subst hj0
    exact ⟨regModelA, rfl⟩

/-- C6: `model_uri_to_version` returns the registry metadata's run
identifier string unchanged. -/
theorem model_uri_to_version_returns_run_id (env : Env) (uri : Value)
    (info : ModelInfo) (h : env.get_model_info uri = Except.ok info) :
    model_uri_to_version env uri = Except.ok info.run_id := by
  simp [model_uri_to_version, h, Except.map]

/-- C6 witness: the demo registry's run id comes back verbatim. -/
theorem model_uri_to_version_returns_run_id_witness :
    demoEnv.get_model_info (Value.str "runs:/abc123def/model")
      = Except.ok ⟨"abc123def"⟩ ∧
    model_uri_to_version demoEnv (Value.str "runs:/abc123def/model")
      = Except.ok "abc123def" :=
  ⟨rfl, model_uri_to_version_returns_run_id demoEnv
    (Value.str "runs:/abc123def/model") ⟨"abc123def"⟩ rfl⟩

/-- C7 counterexample: a configuration with `model.class_weights` present
and `file_path` absent, but with no `model.type` either; `setup_model`
raises "Model type not provided.", which does not name the missing file
path, so the claim as universally stated is false. -/
theorem setup_model_missing_file_path_counterexample :
    get_nested classWeightsNoTypeConfig ["model", "class_weights"]
      = some (Value.dict []) ∧
    get_nested (Value.dict []) ["file_path"] = none ∧
    setup_model demoEnv classWeightsNoTypeConfig
      = Except.error "Model type not provided." ∧
    mentions "Model type not provided." "file path" = false :=
  ⟨rfl, rfl, rfl, by decide⟩

/-- C7 (amended): for every configuration with no `model.uri` and with
`model.type` present, if `model.class_weights` is present but its
`file_path` is absent, `setup_model` raises "Class weights file path not
provided." — naming the missing file path — and it does so for every
environment, in particular for every file reader, so no read is
attempted. -/
theorem setup_model_missing_class_weights_path_fails (env : Env)
    (config : Value) (t w : Value)
    (huri : get_nested config ["model", "uri"] = none)
    (htype : get_nested config ["model", "type"] = some t)
    (hcw : get_nested config ["model", "class_weights"] = some w)
    (hfp : get_nested w ["file_path"] = none) :
    setup_model env config
      = Except.error "Class weights file path not provided." ∧
    mentions "Class weights file path not provided." "file path" = true := by
  refine ⟨?_, by decide⟩
  simp only [setup_model, huri, htype, hcw, class_weights_options, hfp]

/-- C7 witness: a KNN config whose class weights carry only
`relative_or_absolute`. -/
theorem setup_model_missing_class_weights_path_fails_witness :
    setup_model demoEnv classWeightsNoPathConfig
      = Except.error "Class weights file path not provided." ∧
    mentions "Class weights file path not provided." "file path" = true :=
  setup_model_missing_class_weights_path_fails demoEnv
    classWeightsNoPathConfig (Value.str "TF-IDF-KNN")
    (Value.dict [("relative_or_absolute", Value.str "relative")])
    rfl rfl rfl rfl

/-- C8: in the state-passing transcription, every operation returns the
caller-supplied configuration unchanged, on success and on error: none of
them mutates the config. -/
theorem operations_preserve_config (env : Env) (config : Value) :
    (load_modelS env config).2 = config ∧
    (setup_modelS env config).2 = config ∧
    (load_model_listS env config).2 = config ∧
    (load_model_infoS env config).2 = config ∧
    (load_model_info_listS env config).2 = config := by
  refine ⟨?_, ?_, ?_, ?_, ?_⟩
  · unfold load_modelS
    split <;> rfl
  · unfold setup_modelS
    dsimp only
    repeat' split
    all_goals rfl
  · unfold load_model_listS
    split <;> rfl
  · unfold load_model_infoS
    split <;> rfl
  · unfold load_model_info_listS
    split <;> rfl

/-- C9: the result of `setup_model` is independent of the value stored at
`model.class_weights.relative_or_absolute`: two configurations that are
identical except for the value set at that key path produce the same
result, for every environment. -/
theorem setup_model_ignores_relative_or_absolute (env : Env)
    (c v1 v2 : Value) :
    setup_model env
        (setNested c ["model", "class_weights", "relative_or_absolute"] v1)
      = setup_model env
        (setNested c ["model", "class_weights", "relative_or_absolute"] v2) := by
  apply setup_model_congr
  · rw [read_top_other c v1 "global" (by decide),
      read_top_other c v2 "global" (by decide)]
  · rw [read_model_other c v1 "uri" (by decide),
      read_model_other c v2 "uri" (by decide)]
  · rw [read_model_other c v1 "type" (by decide),
      read_model_other c v2 "type" (by decide)]
  · rw [read_model_other c v1 "name" (by decide),
      read_model_other c v2 "name" (by decide)]
  · rw [read_model_other c v1 "parameters" (by decide),
      read_model_other c v2 "parameters" (by decide)]
  · rw [read_class_weights c v1, read_class_weights c v2]
    exact class_weights_options_set_relon env _ _ v1 v2
  · rw [read_model_other c v1 "cost_matrix" (by decide),
      read_model_other c v2 "cost_matrix" (by decide)]
  · rw [read_preprocess_stack c v1, read_preprocess_stack c v2]

/-- C10: on a `TF-IDF-KNN` configuration with class weights, `setup_model`
does read the class-weights file — a failing read aborts the call with the
reader's error — yet a successful read produces a classifier whose
class-weights slot is still empty: `set_class_weights` is never called on
this branch. -/
theorem setup_model_knn_reads_but_drops_class_weights (env : Env)
    (config : Value) (w : Value) (root file : String)
    (huri : get_nested config ["model", "uri"] = none)
    (htype : get_nested config ["model", "type"]
      = some (Value.str "TF-IDF-KNN"))
    (hcw : get_nested config ["model", "class_weights"] = some w)
    (hfp : get_nested w ["file_path"] = some (Value.str file))
    (hroot : (get_nested config ["global", "root_path"]).getD (Value.str "")
      = Value.str root) :
    (∀ e, env.read_class_weights_from_file (os_path_join root file)
        = Except.error e →
      setup_model env config = Except.error e) ∧
    (∀ wv, env.read_class_weights_from_file (os_path_join root file)
        = Except.ok wv →
      setup_model env config = Except.ok (Model.tfidfClassifier
        (Baseline.kNeighborsClassifier
          ((get_nested config ["model", "parameters"]).getD (Value.dict [])))
        (get_nested config ["model", "name"]) none)) := by
  constructor
  · intro e he
    simp only [setup_model, huri, htype, hroot, class_weights_options, hcw,
      hfp, he, Except.map]
  · intro wv hwv
    simp only [setup_model, huri, htype, hroot, class_weights_options, hcw,
      hfp, hwv, Except.map]
    simp [Value.eqStr]

/-- C10 witness: the demo weights file is read and the returned classifier
still carries no class weights. -/
theorem setup_model_knn_reads_but_drops_class_weights_witness :
    demoEnv.read_class_weights_from_file
        (os_path_join "" "data/class_weights.csv")
      = Except.ok (Value.dict [("classA", Value.num 1),
          ("classB", Value.num 3)]) ∧
    setup_model demoEnv knnCwConfig = Except.ok (Model.tfidfClassifier
      (Baseline.kNeighborsClassifier
        ((get_nested knnCwConfig ["model", "parameters"]).getD (Value.dict [])))
      (get_nested knnCwConfig ["model", "name"]) none) :=
  ⟨rfl, (setup_model_knn_reads_but_drops_class_weights demoEnv knnCwConfig
    (Value.dict [("file_path", Value.str "data/class_weights.csv")])
    "" "data/class_weights.csv" rfl rfl rfl rfl rfl).2
    (Value.dict [("classA", Value.num 1), ("classB", Value.num 3)]) rfl⟩

end Mltools
